import Mathlib

/-! Shallow embedding of the qbai-backend document-to-quiz generation pipeline
(package `gemini`, file embedded from src/unnamed/part_000, plus the
persistence-time validation loop of `HandleGenerateQuiz` from
src/unnamed/part_002).  Pure data and algorithms are translated directly;
side effects (the generative-model call, file reads, uploads, deletions,
sleeps) are modelled with an explicit environment record and effect traces.
Concurrency (worker pools, channels) is modelled sequentially in dispatch
order; machine integers (int32/int64) are modelled as `Int` (no arithmetic
here comes close to overflow and no claim depends on wrap-around).
Go byte-indexed strings are modelled as rune lists (`List Char`), which
coincides with Go on the ASCII data used throughout. -/

set_option maxHeartbeats 4000000

/-- Embeds `models.GeminiOption` (src/internal/models/models.go): one answer
option of a generated question. -/
structure GeminiOption where
  text : String
  isCorrect : Bool
  explanation : String
deriving DecidableEq, Repr

/-- Embeds `models.GeminiQuestion`: one generated question. -/
structure GeminiQuestion where
  text : String
  topic : String
  options : List GeminiOption
deriving DecidableEq, Repr

/-- Embeds `models.GeminiQuizResponse`: the structured quiz payload decoded
from the model response. -/
structure GeminiQuizResponse where
  title : String
  questions : List GeminiQuestion
deriving DecidableEq, Repr

/-- Embeds `gemini.DocumentFile`: a file handed to the pipeline
(`Size` is int64 in Go, modelled as `Int`). -/
structure DocumentFile where
  name : String
  path : String
  size : Int
deriving DecidableEq, Repr

/-- Embeds the constant `MaxInlineSize = 20 * 1024 * 1024` (20 MiB). -/
def MaxInlineSize : Int := 20 * 1024 * 1024

/-- Embeds the insertion of one file into a descending-by-size list.  The Go
code uses `sort.Slice` with comparator `Size >`; `sort.Slice` is an unstable
sort, so the Go result is *some* permutation sorted descending by size.  We
fix the stable insertion-sort representative; no claim below depends on the
tie-breaking order. -/
def insertBySize (f : DocumentFile) : List DocumentFile → List DocumentFile
  | [] => [f]
  | g :: rest => if g.size ≤ f.size then f :: g :: rest else g :: insertBySize f rest

/-- Descending sort by size (see `insertBySize`). -/
def sortBySizeDesc (l : List DocumentFile) : List DocumentFile :=
  l.foldr insertBySize []

/-- Embeds the accumulation loop of `createFileBatches`
(src/unnamed/part_000 lines 525-555).  Arguments: remaining files, batches
emitted so far, current batch, current batch size. -/
def batchesLoop (maxBatchSize : Int) :
    List DocumentFile → List (List DocumentFile) → List DocumentFile → Int →
      List (List DocumentFile)
  | [], batches, currentBatch, _ =>
      if 0 < currentBatch.length then batches ++ [currentBatch] else batches
  | f :: rest, batches, currentBatch, currentSize =>
      if maxBatchSize / 2 < f.size then
        batchesLoop maxBatchSize rest (batches ++ [[f]]) currentBatch currentSize
      else if (maxBatchSize < currentSize + f.size ∨ 3 ≤ currentBatch.length) ∧
          0 < currentBatch.length then
        batchesLoop maxBatchSize rest (batches ++ [currentBatch]) [f] f.size
      else
        batchesLoop maxBatchSize rest batches (currentBatch ++ [f]) (currentSize + f.size)

/-- Embeds `createFileBatches(files, maxBatchSize)`: sort descending by size,
put any file larger than half the cap in a singleton batch, otherwise
accumulate until the size cap would be exceeded or the batch holds 3 files. -/
def createFileBatches (files : List DocumentFile) (maxBatchSize : Int) :
    List (List DocumentFile) :=
  batchesLoop maxBatchSize (sortBySizeDesc files) [] [] 0

/-- Embeds `limitQuizSize` (src/unnamed/part_000 lines 885-894): over-long
responses are rebuilt keeping only the first `maxQuestions` questions; the
rebuilt value does not copy the `Title` field. -/
def limitQuizSize (q : GeminiQuizResponse) (maxQuestions : Nat) : GeminiQuizResponse :=
  if q.questions.length ≤ maxQuestions then q
  else { title := "", questions := q.questions.take maxQuestions }

/-! JSON model.  `encoding/json` behaviour needed by the pipeline:
`json.Unmarshal(data, &map[string]interface{})` (used by the repair tests in
`extractJSONFromText`) succeeds exactly when `data` is one syntactically
valid JSON value, surrounded only by whitespace, whose top level is an
object or `null`; and `json.Decoder.Decode(&GeminiQuizResponse{})` with
`DisallowUnknownFields` decodes the first JSON value of the stream into the
struct, failing on syntax errors, type mismatches and unknown keys.
The parser below implements the JSON grammar exactly as Go's scanner does
(strict numbers, string escapes, no trailing commas); `\uXXXX` escapes are
mapped to the scalar with that code point (Go additionally combines
surrogate pairs; no input in this development contains surrogates). -/

/-- The character a JSON text writes as a left brace. -/
def lbr : Char := Char.ofNat 123

/-- The character a JSON text writes as a right brace. -/
def rbr : Char := Char.ofNat 125

/-- The backtick character (used by markdown code fences). -/
def btick : Char := Char.ofNat 96

/-- JSON values (object fields keep source order and duplicates). -/
inductive JVal where
  | null
  | jbool (b : Bool)
  | jnum (raw : String)
  | jstr (s : String)
  | jarr (elems : List JVal)
  | jobj (fields : List (String × JVal))
deriving Repr

/-- Go JSON whitespace. -/
def isWsC (c : Char) : Bool := c = ' ' || c = '\t' || c = '\n' || c = '\r'

/-- Drop leading JSON whitespace. -/
def skipWs : List Char → List Char
  | [] => []
  | c :: rest => if isWsC c then skipWs rest else c :: rest

/-- ASCII decimal digit test. -/
def isDigitC (c : Char) : Bool := '0' ≤ c && c ≤ '9'

/-- Hex digit value. -/
def hexVal (c : Char) : Option Nat :=
  if '0' ≤ c && c ≤ '9' then some (c.toNat - 48)
  else if 'a' ≤ c && c ≤ 'f' then some (c.toNat - 87)
  else if 'A' ≤ c && c ≤ 'F' then some (c.toNat - 55)
  else none

/-- Parse the body of a JSON string literal (opening quote already
consumed), returning the decoded string and the rest of the input. -/
def parseStringBody : Nat → List Char → List Char → Option (String × List Char)
  | 0, _, _ => none
  | _ + 1, [], _ => none
  | f + 1, c :: rest, acc =>
    if c = '\"' then some (String.mk acc.reverse, rest)
    else if c = '\\' then
      match rest with
      | [] => none
      | e :: rest2 =>
        if e = '\"' then parseStringBody f rest2 ('\"' :: acc)
        else if e = '\\' then parseStringBody f rest2 ('\\' :: acc)
        else if e = '/' then parseStringBody f rest2 ('/' :: acc)
        else if e = 'b' then parseStringBody f rest2 (Char.ofNat 8 :: acc)
        else if e = 'f' then parseStringBody f rest2 (Char.ofNat 12 :: acc)
        else if e = 'n' then parseStringBody f rest2 ('\n' :: acc)
        else if e = 'r' then parseStringBody f rest2 (Char.ofNat 13 :: acc)
        else if e = 't' then parseStringBody f rest2 ('\t' :: acc)
        else if e = 'u' then
          match rest2 with
          | h1 :: h2 :: h3 :: h4 :: rest3 =>
            match hexVal h1, hexVal h2, hexVal h3, hexVal h4 with
            | some a, some b, some c2, some d =>
                parseStringBody f rest3 (Char.ofNat (((a * 16 + b) * 16 + c2) * 16 + d) :: acc)
            | _, _, _, _ => none
          | _ => none
        else none
    else if c.toNat < 32 then none
    else parseStringBody f rest (c :: acc)

/-- Parse a JSON number (strict grammar: optional minus, `0` or a nonzero
digit followed by digits, optional fraction, optional exponent). -/
def parseNum (cs : List Char) : Option (String × List Char) :=
  let step1 : Option (List Char × List Char) :=
    match cs with
    | '-' :: d :: rest =>
        if d = '0' then some (['-', d], rest)
        else if isDigitC d then
          some ('-' :: d :: rest.takeWhile isDigitC, rest.dropWhile isDigitC)
        else none
    | d :: rest =>
        if d = '0' then some ([d], rest)
        else if isDigitC d then
          some (d :: rest.takeWhile isDigitC, rest.dropWhile isDigitC)
        else none
    | [] => none
  match step1 with
  | none => none
  | some (intPart, rest1) =>
    let step2 : Option (List Char × List Char) :=
      match rest1 with
      | '.' :: d :: rest =>
          if isDigitC d then
            some ('.' :: d :: rest.takeWhile isDigitC, rest.dropWhile isDigitC)
          else none
      | '.' :: [] => none
      | _ => some ([], rest1)
    match step2 with
    | none => none
    | some (fracPart, rest2) =>
      let step3 : Option (List Char × List Char) :=
        match rest2 with
        | e :: rest =>
          if e = 'e' || e = 'E' then
            match rest with
            | s :: d :: rest3 =>
                if (s = '+' || s = '-') && isDigitC d then
                  some (e :: s :: d :: rest3.takeWhile isDigitC, rest3.dropWhile isDigitC)
                else if isDigitC s then
                  some (e :: s :: (d :: rest3).takeWhile isDigitC,
                        (d :: rest3).dropWhile isDigitC)
                else none
            | [s] => if isDigitC s then some ([e, s], []) else none
            | [] => none
          else some ([], rest2)
        | [] => some ([], rest2)
      match step3 with
      | none => none
      | some (expPart, rest3) =>
          some (String.mk (intPart ++ fracPart ++ expPart), rest3)

mutual

/-- Parse one JSON value (leading whitespace allowed), fuel-indexed. -/
def parseVal : Nat → List Char → Option (JVal × List Char)
  | 0, _ => none
  | f + 1, cs =>
    match skipWs cs with
    | [] => none
    | c :: rest =>
      if c = lbr then
        match skipWs rest with
        | [] => none
        | c2 :: rest2 =>
          if c2 = rbr then some (.jobj [], rest2)
          else parseMembers f (c2 :: rest2) []
      else if c = '[' then
        match skipWs rest with
        | [] => none
        | c2 :: rest2 =>
          if c2 = ']' then some (.jarr [], rest2)
          else parseElems f (c2 :: rest2) []
      else if c = '\"' then
        match parseStringBody (rest.length + 1) rest [] with
        | some (s, rest2) => some (.jstr s, rest2)
        | none => none
      else if c = 't' then
        if ['r', 'u', 'e'].isPrefixOf rest then some (.jbool true, rest.drop 3) else none
      else if c = 'f' then
        if ['a', 'l', 's', 'e'].isPrefixOf rest then some (.jbool false, rest.drop 4) else none
      else if c = 'n' then
        if ['u', 'l', 'l'].isPrefixOf rest then some (.null, rest.drop 3) else none
      else if c = '-' || isDigitC c then
        match parseNum (c :: rest) with
        | some (raw, rest2) => some (.jnum raw, rest2)
        | none => none
      else none

/-- Parse the members of a JSON object (input positioned at the first key). -/
def parseMembers : Nat → List Char → List (String × JVal) → Option (JVal × List Char)
  | 0, _, _ => none
  | f + 1, cs, acc =>
    match skipWs cs with
    | [] => none
    | c :: rest =>
      if c = '\"' then
        match parseStringBody (rest.length + 1) rest [] with
        | none => none
        | some (k, rest2) =>
          match skipWs rest2 with
          | ':' :: rest3 =>
            (match parseVal f rest3 with
             | none => none
             | some (v, rest4) =>
               match skipWs rest4 with
               | ',' :: rest5 => parseMembers f rest5 ((k, v) :: acc)
               | c5 :: rest5 =>
                   if c5 = rbr then some (.jobj ((k, v) :: acc).reverse, rest5) else none
               | [] => none)
          | _ => none
      else none

/-- Parse the elements of a JSON array (input positioned at the first
element). -/
def parseElems : Nat → List Char → List JVal → Option (JVal × List Char)
  | 0, _, _ => none
  | f + 1, cs, acc =>
    match parseVal f cs with
    | none => none
    | some (v, rest) =>
      match skipWs rest with
      | ',' :: rest2 => parseElems f rest2 (v :: acc)
      | c2 :: rest2 => if c2 = ']' then some (.jarr (v :: acc).reverse, rest2) else none
      | [] => none

end

/-- Parse one JSON value with enough fuel for any input of this length. -/
def parseJson (cs : List Char) : Option (JVal × List Char) :=
  parseVal (2 * cs.length + 4) cs

/-- Embeds `json.Unmarshal([]byte(s), &test)` with
`test : map[string]interface{}`: one whole valid JSON value whose top level
is an object (or `null`). -/
def jsonUnmarshalMapOkL (cs : List Char) : Bool :=
  match parseJson cs with
  | none => false
  | some (v, rest) =>
    (skipWs rest).isEmpty &&
      (match v with
       | .jobj _ => true
       | .null => true
       | _ => false)

/-- String-level wrapper of `jsonUnmarshalMapOkL`. -/
def jsonUnmarshalMapOk (s : String) : Bool := jsonUnmarshalMapOkL s.data

/-! Embeddings of the three regular expressions used by `extractJSONFromText`
(Go `regexp`, leftmost-first semantics like Perl; `Find*` returns the
leftmost match, greedy `.*` extends maximally, lazy `.*?` minimally; without
the `(?s)` flag `.` does not match a newline). -/

/-- Whether `pat` occurs in `s` starting at index `i`. -/
def subAt (pat s : List Char) (i : Nat) : Bool := pat.isPrefixOf (s.drop i)

/-- The 11-character literal `"questions"` (quotes included). -/
def qLit : List Char := ('\"' :: "questions".data) ++ ['\"']

/-- The 12-character literal the repair path searches for (an opening brace
followed by `qLit`). -/
def qKeyL : List Char := lbr :: qLit

/-- First index `< n` satisfying `p`. -/
def findFirstIdx (n : Nat) (p : Nat → Bool) : Option Nat := (List.range n).find? p

/-- Last index of character `c` in `s`. -/
def lastIdxOf (s : List Char) (c : Char) : Option Nat :=
  ((List.range s.length).filter fun k => s.getD k ' ' = c).getLast?

/-- Embeds `jsonPattern.FindString` for `(?s)\{.*"questions".*\}`: the match
(if any) starts at the leftmost `{` that is followed by an occurrence of
`"questions"` which still leaves a `}` after it, and — both `.*` being
greedy — ends at the last `}` of the whole text. -/
def re1Match (s : List Char) : Option (List Char) :=
  match lastIdxOf s rbr with
  | none => none
  | some lastB =>
    match findFirstIdx s.length (fun i =>
        s.getD i ' ' = lbr &&
          ((List.range (lastB + 1)).any fun q =>
            decide (i + 1 ≤ q) && subAt qLit s q && decide (q + 11 ≤ lastB))) with
    | none => none
    | some i => some ((s.drop i).take (lastB + 1 - i))

/-- RE2 `\s` class. -/
def isReWs (c : Char) : Bool :=
  c = ' ' || c = '\t' || c = '\n' || c = Char.ofNat 12 || c = Char.ofNat 13

/-- Index just past the maximal `\s` run starting at `i`. -/
def wsRunEnd (s : List Char) (i : Nat) : Nat :=
  i + ((s.drop i).takeWhile isReWs).length

/-- The three-character markdown fence. -/
def fenceL : List Char := [btick, btick, btick]

/-- Continuation of the code-block pattern after the (optional) `json` tag:
`\s*(\{.*?\})\s*` followed by a closing fence; returns the capture group. -/
def re2TryFrom (s : List Char) (j : Nat) : Option (List Char) :=
  let b := wsRunEnd s j
  if s.getD b ' ' = lbr then
    match findFirstIdx s.length (fun e =>
        decide (b + 1 ≤ e) && s.getD e ' ' = rbr &&
          ((s.drop (b + 1)).take (e - (b + 1))).all (fun c => c ≠ '\n') &&
          subAt fenceL s (wsRunEnd s (e + 1))) with
    | none => none
    | some e => some ((s.drop b).take (e + 1 - b))
  else none

/-- One starting position of the code-block pattern; the greedy `(?:json)?`
first tries to consume the `json` tag. -/
def re2At (s : List Char) (i : Nat) : Option (List Char) :=
  if subAt fenceL s i then
    match (if subAt "json".data s (i + 3) then re2TryFrom s (i + 7) else none) with
    | some r => some r
    | none => re2TryFrom s (i + 3)
  else none

/-- Embeds `codeBlockPattern.FindStringSubmatch` for
``` ```(?:json)?\s*(\{.*?\})\s*``` ``` (capture group 1). -/
def re2Match (s : List Char) : Option (List Char) :=
  match findFirstIdx s.length (fun i => (re2At s i).isSome) with
  | none => none
  | some i => re2At s i

/-- One starting position of `"questions"\s*:\s*\[(.*?)\]`. -/
def re3At (s : List Char) (q : Nat) : Option (List Char) :=
  if subAt qLit s q then
    let a := wsRunEnd s (q + 11)
    if s.getD a ' ' = ':' then
      let b := wsRunEnd s (a + 1)
      if s.getD b ' ' = '[' then
        match findFirstIdx s.length (fun e =>
            decide (b + 1 ≤ e) && s.getD e ' ' = ']' &&
              ((s.drop (b + 1)).take (e - (b + 1))).all (fun c => c ≠ '\n')) with
        | none => none
        | some e => some ((s.drop (b + 1)).take (e - (b + 1)))
      else none
    else none
  else none

/-- Embeds `questionsPattern.FindStringSubmatch` for
`"questions"\s*:\s*\[(.*?)\]` (capture group 1, the array innards). -/
def re3Match (s : List Char) : Option (List Char) :=
  match findFirstIdx s.length (fun q => (re3At s q).isSome) with
  | none => none
  | some q => re3At s q

/-- Embeds the character walk of `extractJSONFromText` that counts braces
outside string literals, honouring backslash escapes: arguments are the
remaining text, the in-string flag, the just-saw-backslash flag, and the two
counters; result is `(openBraces, closeBraces)`. -/
def braceWalk : List Char → Bool → Bool → Nat → Nat → Nat × Nat
  | [], _, _, o, c => (o, c)
  | ch :: rest, inStr, esc, o, c =>
    if esc then braceWalk rest inStr false o c
    else if ch = '\\' then braceWalk rest inStr true o c
    else if ch = '\"' then braceWalk rest (!inStr) false o c
    else if !inStr then
      if ch = lbr then braceWalk rest inStr false (o + 1) c
      else if ch = rbr then braceWalk rest inStr false o (c + 1)
      else braceWalk rest inStr false o c
    else braceWalk rest inStr false o c

/-- Number of closing braces the repair would append. -/
def braceDeficit (cs : List Char) : Nat :=
  let oc := braceWalk cs false false 0 0
  oc.1 - oc.2

/-- Embeds `extractJSONFromText` (src/unnamed/part_000 lines 811-883) on rune
lists: greedy object match, then fenced code block, then the
locate/brace-balance/parse repair with its array-rewrap fallback, finally
the unchanged text. -/
def extractCore (text : List Char) : List Char :=
  match re1Match text with
  | some m => m
  | none =>
  match re2Match text with
  | some m => m
  | none =>
  match findFirstIdx (text.length + 1) (fun i => subAt qKeyL text i) with
  | none => text
  | some startIdx =>
    let t1 := text.drop startIdx
    let oc := braceWalk t1 false false 0 0
    let t2 := if oc.2 < oc.1 then t1 ++ List.replicate (oc.1 - oc.2) rbr else t1
    if jsonUnmarshalMapOkL t2 then t2
    else
      match re3Match t2 with
      | none => text
      | some g1 =>
        let fixed := qKeyL ++ [':', '['] ++ g1
        let fixed2 :=
          if [rbr, ']'].isSuffixOf fixed then fixed ++ [rbr]
          else
            match lastIdxOf fixed rbr with
            | some idx =>
                if 0 < idx then fixed.take (idx + 1) ++ [']', rbr]
                else fixed ++ [']', rbr]
            | none => fixed ++ [']', rbr]
        if jsonUnmarshalMapOkL fixed2 then fixed2 else text

/-- String-level `extractJSONFromText`. -/
def extractJSONFromText (t : String) : String := String.mk (extractCore t.data)

/-! Decoding of the quiz response struct, embedding
`decoder.Decode(&quizResponse)` with `DisallowUnknownFields()` and
`UseNumber()` (src/unnamed/part_000 lines 714-725).  Go matches keys to
struct fields case-insensitively (ASCII fold on the tags
`title/questions/text/topic/options/is_correct/explanation`), rejects keys
matching no field, rejects type mismatches, ignores `null` (keeps the
current value for scalar fields), and lets duplicate keys overwrite. -/

/-- ASCII lower-casing for field-name folding. -/
def lowerC (c : Char) : Char :=
  if 'A' ≤ c && c ≤ 'Z' then Char.ofNat (c.toNat + 32) else c

/-- ASCII case-insensitive equality of a JSON key and a field tag. -/
def foldEq (a b : String) : Bool := a.data.map lowerC = b.data.map lowerC

/-- Apply one JSON object field to a `GeminiOption` under decode. -/
def setOptField (o : GeminiOption) (k : String) (v : JVal) : Except String GeminiOption :=
  if foldEq k "text" then
    match v with
    | .jstr s => .ok { o with text := s }
    | .null => .ok o
    | _ => .error ("json: cannot unmarshal value into Go struct field " ++ k)
  else if foldEq k "is_correct" then
    match v with
    | .jbool b => .ok { o with isCorrect := b }
    | .null => .ok o
    | _ => .error ("json: cannot unmarshal value into Go struct field " ++ k)
  else if foldEq k "explanation" then
    match v with
    | .jstr s => .ok { o with explanation := s }
    | .null => .ok o
    | _ => .error ("json: cannot unmarshal value into Go struct field " ++ k)
  else .error ("json: unknown field \"" ++ k ++ "\"")

/-- Decode one array element into a `GeminiOption`. -/
def jvalToOption : JVal → Except String GeminiOption
  | .null => .ok ⟨"", false, ""⟩
  | .jobj fs => fs.foldlM (fun o kv => setOptField o kv.1 kv.2) ⟨"", false, ""⟩
  | _ => .error "json: cannot unmarshal value into Go struct field options"

/-- Apply one JSON object field to a `GeminiQuestion` under decode. -/
def setQuestionField (q : GeminiQuestion) (k : String) (v : JVal) :
    Except String GeminiQuestion :=
  if foldEq k "text" then
    match v with
    | .jstr s => .ok { q with text := s }
    | .null => .ok q
    | _ => .error ("json: cannot unmarshal value into Go struct field " ++ k)
  else if foldEq k "topic" then
    match v with
    | .jstr s => .ok { q with topic := s }
    | .null => .ok q
    | _ => .error ("json: cannot unmarshal value into Go struct field " ++ k)
  else if foldEq k "options" then
    match v with
    | .jarr es =>
      match es.mapM jvalToOption with
      | .ok os => .ok { q with options := os }
      | .error e => .error e
    | .null => .ok q
    | _ => .error ("json: cannot unmarshal value into Go struct field " ++ k)
  else .error ("json: unknown field \"" ++ k ++ "\"")

/-- Decode one array element into a `GeminiQuestion`. -/
def jvalToQuestion : JVal → Except String GeminiQuestion
  | .null => .ok ⟨"", "", []⟩
  | .jobj fs => fs.foldlM (fun q kv => setQuestionField q kv.1 kv.2) ⟨"", "", []⟩
  | _ => .error "json: cannot unmarshal value into Go struct field questions"

/-- Apply one JSON object field to a `GeminiQuizResponse` under decode. -/
def setQuizField (r : GeminiQuizResponse) (k : String) (v : JVal) :
    Except String GeminiQuizResponse :=
  if foldEq k "title" then
    match v with
    | .jstr s => .ok { r with title := s }
    | .null => .ok r
    | _ => .error ("json: cannot unmarshal value into Go struct field " ++ k)
  else if foldEq k "questions" then
    match v with
    | .jarr es =>
      match es.mapM jvalToQuestion with
      | .ok qs => .ok { r with questions := qs }
      | .error e => .error e
    | .null => .ok r
    | _ => .error ("json: cannot unmarshal value into Go struct field " ++ k)
  else .error ("json: unknown field \"" ++ k ++ "\"")

/-- Embeds the strict decode of the extracted JSON into
`models.GeminiQuizResponse` (`Decoder.Decode` reads the first JSON value of
its input and ignores what follows it). -/
def decodeQuizResponse (s : String) : Except String GeminiQuizResponse :=
  match parseJson s.data with
  | none => .error "invalid JSON document"
  | some (v, _) =>
    match v with
    | .null => .ok ⟨"", []⟩
    | .jobj fs => fs.foldlM (fun r kv => setQuizField r kv.1 kv.2) ⟨"", []⟩
    | _ => .error "json: cannot unmarshal value into Go value of type models.GeminiQuizResponse"

/-! The generative request client (`generateQuiz` and its helpers,
src/unnamed/part_000 lines 649-739).  The external model is an oracle
mapping the attempt number to a transport error or a response; the
`SetMaxOutputTokens`/prompt-mutation/`Sleep` side effects are recorded in an
`AttemptRecord` trace. -/

/-- Embeds the constant `QuizPrompt` (src/unnamed/part_000 lines 206-252). -/
def QuizPrompt : String :=
  String.intercalate "\n"
    [ "Generate a comprehensive multiple-choice quiz based on the content of these documents. Follow these requirements exactly:"
    , ""
    , "1. Create a descriptive title for the quiz that accurately reflects the main subject matter of the documents"
    , "2. Create questions covering ALL main topics and subtopics in the documents, ensuring no significant concept is omitted. Include the topic for each question (so that questions can be grouped by topic later.)"
    , "3. Include a balanced distribution of question types:"
    , "   - Basic factual recall questions"
    , "   - Comprehension questions that require understanding concepts"
    , "   - Application/analysis questions that require:"
    , "     * Applying principles to new scenarios"
    , "     * Analyzing relationships between concepts"
    , "     * Connecting ideas across different sections"
    , "   - Synthesis/evaluation questions that require:"
    , "     * Evaluating implications or consequences of key ideas"
    , "     * Comparing competing perspectives or approaches"
    , "     * Predicting outcomes based on document principles"
    , "     * Identifying unstated assumptions underlying concepts"
    , "4. For analytical questions, prioritize second and third-order thinking by asking about:"
    , "   - \"What would happen if...\" scenarios"
    , "   - Underlying mechanisms or reasons behind facts"
    , "   - How concepts interact in complex systems"
    , "   - Potential exceptions or limitations to stated principles"
    , "5. Each question must have exactly 4 options with exactly one correct answer"
    , "6. For EACH answer option:"
    , "   - Provide a concise \"explanation\" field detailing WHY the option is correct OR incorrect based on the source documents. Don't state \"This is incorrect/correct\". Just say the explanation. e.g.\"Gravity was discovered by Isaac Newton\""
    , "   - Make incorrect options (distractors) highly plausible by using common misconceptions or partial understandings."
    , "   - Ensure all options have approximately the same length and level of detail."
    , "   - Maintain consistent grammar, style, and tone across all options."
    , "   - Avoid obvious wrong answers or \"joke\" options."
    , ""
    , "Format your response as a JSON object with the following structure:"
    , "\x7b"
    , "  \"title\": \"Descriptive Quiz Title Based on Document Content\","
    , "  \"questions\": ["
    , "    \x7b"
    , "      \"text\": \"Question text here?\","
    , "      \"topic\": \"the topic this question is about.\","
    , "      \"options\": ["
    , "        \x7b\"text\": \"Option A\", \"is_correct\": false, \"explanation\": \"Explanation why A is incorrect.\"\x7d,"
    , "        \x7b\"text\": \"Option B\", \"is_correct\": true, \"explanation\": \"Explanation why B is correct.\"\x7d,"
    , "        \x7b\"text\": \"Option C\", \"is_correct\": false, \"explanation\": \"Explanation why C is incorrect.\"\x7d,"
    , "        \x7b\"text\": \"Option D\", \"is_correct\": false, \"explanation\": \"Explanation why D is incorrect.\"\x7d"
    , "      ]"
    , "    \x7d,"
    , "    ...more questions..."
    , "  ]"
    , "\x7d" ] ++ "\n"

/-- Embeds `genai.Part` as far as the pipeline constructs or inspects it:
a text part, an inline blob (mime type and data), or a remote file
reference. -/
inductive GenPart where
  | text (s : String)
  | blob (mimeType : String) (data : String)
  | fileRef (uri : String)
deriving DecidableEq, Repr

/-- Embeds `resp.UsageMetadata` (token counters are int32 in Go). -/
structure UsageMeta where
  promptTokens : Int
  candidateTokens : Int
  totalTokens : Int
deriving DecidableEq, Repr

/-- Embeds one response candidate (only its content parts are inspected). -/
structure Candidate where
  parts : List GenPart
deriving DecidableEq, Repr

/-- Embeds a `GenerateContent` response. -/
structure GenResponse where
  usageMetadata : Option UsageMeta
  candidates : List Candidate
deriving DecidableEq, Repr

/-- The prompt sent on retry `n`: `fmt.Sprintf` of `QuizPrompt` and
`maxQs = 50 - attempts*15`. -/
def limitedPrompt (n : Nat) : String :=
  QuizPrompt ++
    "\n\nIMPORTANT: Due to size constraints, please limit your response to no more than " ++
    toString ((50 : Int) - 15 * (n : Int)) ++ " questions."

/-- Embeds the retry-loop mutation `parts[i] = genai.Text(limitedPrompt)`
applied to the first text part. -/
def replaceFirstText : List GenPart → String → List GenPart
  | [], _ => []
  | .text _ :: rest, s => .text s :: rest
  | p :: rest, s => p :: replaceFirstText rest s

/-- Outcome of one loop iteration of `generateQuiz`: either one of the five
failure categories (with the attempt's error message) or a parsed,
non-empty quiz; either way carrying the usage metadata the response bore
(`none` on transport error or absent metadata). -/
inductive StepOut where
  | fail (msg : String) (usageSeen : Option UsageMeta)
  | pass (q : GeminiQuizResponse) (usageSeen : Option UsageMeta)
deriving DecidableEq, Repr

/-- Whether the step failed. -/
def StepOut.isFail : StepOut → Bool
  | .fail _ _ => true
  | .pass _ _ => false

/-- The step's error message (empty for a passing step). -/
def StepOut.msg : StepOut → String
  | .fail m _ => m
  | .pass _ _ => ""

/-- The usage metadata the step observed. -/
def StepOut.seen : StepOut → Option UsageMeta
  | .fail _ u => u
  | .pass _ u => u

/-- Embeds the body of one `generateQuiz` loop iteration
(src/unnamed/part_000 lines 676-731): transport error, empty
candidates/parts, text-part concatenation, `extractJSONFromText`, strict
decode, and the zero-questions check, in source order. -/
def stepOut (gen : Nat → Except String GenResponse) (n : Nat) : StepOut :=
  match gen n with
  | .error e => .fail (s!"failed to generate content (attempt {n + 1}): " ++ e) none
  | .ok resp =>
    let u := resp.usageMetadata
    match resp.candidates with
    | [] => .fail s!"no content generated (attempt {n + 1})" u
    | c0 :: _ =>
      if c0.parts.isEmpty then .fail s!"no content generated (attempt {n + 1})" u
      else
        let jsonText := String.join (c0.parts.filterMap fun p =>
          match p with
          | .text s => some s
          | _ => none)
        let extracted := extractJSONFromText jsonText
        if extracted = "" then
          .fail s!"no JSON content found in response (attempt {n + 1})" u
        else
          match decodeQuizResponse extracted with
          | .error de =>
              .fail (s!"failed to parse JSON response (attempt {n + 1}): " ++ de ++
                ". Raw text logged.") u
          | .ok q =>
              if q.questions.isEmpty then
                .fail s!"quiz response contained no questions (attempt {n + 1})" u
              else .pass q u

/-- Per-attempt effect record: the sampling budget and prompt the attempt was
issued with, the usage metadata logged for it, whether it failed, and the
length of the `time.Sleep` that followed it. -/
structure AttemptRecord where
  index : Nat
  maxOutputTokens : Int
  questionCap : Option Int
  sentParts : List GenPart
  usageSeen : Option UsageMeta
  failed : Bool
  sleptSeconds : Nat
deriving DecidableEq, Repr

/-- Build the effect record of attempt `n`: the initial
`SetMaxOutputTokens(8192)` applies to attempt 0; retries set
`4096 - attempts*1000` and inject the `50 - attempts*15` question cap into
the first text part; every failed attempt is followed by a 2-second sleep. -/
def mkRecord (parts0 : List GenPart) (n : Nat) (s : StepOut) : AttemptRecord :=
  { index := n
    maxOutputTokens := if n = 0 then 8192 else 4096 - 1000 * (n : Int)
    questionCap := if n = 0 then none else some (50 - 15 * (n : Int))
    sentParts := if n = 0 then parts0 else replaceFirstText parts0 (limitedPrompt n)
    usageSeen := s.seen
    failed := s.isFail
    sleptSeconds := if s.isFail then 2 else 0 }

/-- The Go 5-tuple `(quiz, promptTokens, candidateTokens, totalTokens, err)`
returned by each pipeline function. -/
structure PipeOut where
  draft : Option GeminiQuizResponse
  promptTokens : Int
  candidateTokens : Int
  totalTokens : Int
  err : Option String
deriving DecidableEq, Repr

/-- The running token counters: assigned (not accumulated) whenever a
response carries usage metadata, kept otherwise. -/
def updUsage (c : UsageMeta) : Option UsageMeta → UsageMeta
  | some u => u
  | none => c

/-- Embeds the `for attempts := 0; attempts < 3` loop of `generateQuiz` over
the list of remaining attempt numbers, carrying the token counters and the
last error; on success returns the draft capped at 200 questions with the
current counters, after exhaustion returns zero counters and the wrapped
last error. -/
def genAuxL (gen : Nat → Except String GenResponse) (parts0 : List GenPart) :
    List Nat → UsageMeta → String → PipeOut × List AttemptRecord
  | [], _, lastErr =>
      (⟨none, 0, 0, 0, some ("failed to generate quiz after multiple attempts: " ++ lastErr)⟩,
       [])
  | n :: ns, carried, _ =>
    match stepOut gen n with
    | .fail m u =>
        let rest := genAuxL gen parts0 ns (updUsage carried u) m
        (rest.1, mkRecord parts0 n (.fail m u) :: rest.2)
    | .pass q u =>
        let c := updUsage carried u
        (⟨some (limitQuizSize q 200), c.promptTokens, c.candidateTokens, c.totalTokens, none⟩,
         [mkRecord parts0 n (.pass q u)])

/-- Embeds `generateQuiz(ctx, parts)`: three attempts at most. -/
def generateQuizGo (gen : Nat → Except String GenResponse) (parts : List GenPart) :
    PipeOut × List AttemptRecord :=
  genAuxL gen parts [0, 1, 2] ⟨0, 0, 0⟩ ""

/-- Number of attempts the loop performs for a given oracle: the first
passing attempt ends it, otherwise all three run. -/
def attemptsMade (gen : Nat → Except String GenResponse) : Nat :=
  if (stepOut gen 0).isFail = false then 1
  else if (stepOut gen 1).isFail = false then 2
  else 3

/-! The orchestration layer (`processInline`, `processWithFileAPI`,
`processFilesIndividually`, `processChunk`, `ProcessDocuments`,
src/unnamed/part_000 lines 304-645).  The worker pools and channels are
modelled sequentially in dispatch order; each `generateQuiz` call site is
addressed by a path (top-level chunk index, then batch index) so that the
oracle can answer every call of one invocation.  Go's recursion
`processFilesIndividually -> processChunk` is fuel-bounded here (the fuel is
a modelling artifact: Go bounds it operationally because sub-batches shrink
below the split threshold; every theorem below quantifies over or
instantiates sufficient fuel). -/

/-- The external world of one `ProcessDocuments` invocation. -/
structure Env where
  readFile : String → Except String String
  statSize : String → Except String Int
  upload : String → Except String String
  shuffleQs : List GeminiQuestion → List GeminiQuestion
  oracle : List Nat → Nat → Except String GenResponse
  today : String

/-- Side effects recorded by a pipeline call: the attempt records of every
`generateQuiz` call it made and the file references it deleted. -/
structure Effects where
  attempts : List AttemptRecord
  deleted : List String
deriving DecidableEq, Repr

/-- Concatenation of effect traces. -/
def Effects.app (a b : Effects) : Effects :=
  ⟨a.attempts ++ b.attempts, a.deleted ++ b.deleted⟩

/-- Embeds `filepath.Ext`: the suffix beginning at the final dot of the
final path element (empty when there is none). -/
def extOf (filename : String) : String :=
  let rev := filename.data.reverse
  let pre := rev.takeWhile fun c => c ≠ '.' && c ≠ '/'
  match rev.drop pre.length with
  | '.' :: _ => String.mk ('.' :: pre.reverse)
  | _ => ""

/-- Embeds `getMimeType` (src/unnamed/part_000 lines 937-951). -/
def getMimeType (filename : String) : String :=
  let ext := (extOf filename).toLower
  if ext = ".pdf" then "application/pdf"
  else if ext = ".txt" then "text/plain"
  else if ext = ".md" then "text/markdown"
  else if ext = ".docx" then
    "application/vnd.openxmlformats-officedocument.wordprocessingml.document"
  else "application/octet-stream"

/-- Embeds the read loop of `processInline`: read every file, failing on a
read error or empty content, and build its inline blob part. -/
def readBlobs (env : Env) : List DocumentFile → Except String (List GenPart)
  | [] => .ok []
  | f :: rest =>
    match env.readFile f.path with
    | .error e => .error ("failed to read file " ++ f.name ++ ": " ++ e)
    | .ok data =>
      if data.isEmpty then .error ("file " ++ f.name ++ " is empty")
      else
        match readBlobs env rest with
        | .error e => .error e
        | .ok bs => .ok (GenPart.blob (getMimeType f.name) data :: bs)

/-- Embeds `processInline` (src/unnamed/part_000 lines 558-578). -/
def processInlineGo (env : Env) (path : List Nat) (files : List DocumentFile) :
    PipeOut × Effects :=
  match readBlobs env files with
  | .error e => (⟨none, 0, 0, 0, some e⟩, ⟨[], []⟩)
  | .ok blobs =>
    if files.isEmpty then
      (⟨none, 0, 0, 0, some "no files provided for processing"⟩, ⟨[], []⟩)
    else
      let r := generateQuizGo (env.oracle path) (GenPart.text QuizPrompt :: blobs)
      (r.1, ⟨r.2, []⟩)

/-- Embeds one upload goroutine of `processWithFileAPI`: stat the file,
reject an empty one, upload it, and return the remote reference. -/
def upStep (env : Env) (f : DocumentFile) : Except String String :=
  match env.statSize f.path with
  | .error e => .error ("failed to access file " ++ f.name ++ ": " ++ e)
  | .ok sz =>
    if sz = 0 then .error ("file " ++ f.name ++ " is empty")
    else
      match env.upload f.path with
      | .error e => .error ("failed to upload file " ++ f.name ++ ": " ++ e)
      | .ok uri => .ok uri

/-- Embeds `processWithFileAPI` (src/unnamed/part_000 lines 581-645): upload
every file (errors collected, the first one returned), attach the remote
references after the fixed prompt, call `generateQuiz`, then delete every
uploaded reference whether or not generation succeeded. -/
def processWithFileAPIGo (env : Env) (path : List Nat) (files : List DocumentFile) :
    PipeOut × Effects :=
  if files.isEmpty then
    (⟨none, 0, 0, 0, some "no files provided for processing"⟩, ⟨[], []⟩)
  else
    let ups := files.map fun f => upStep env f
    let errs := ups.filterMap fun u =>
      match u with
      | .error e => some e
      | .ok _ => none
    match errs with
    | e :: _ => (⟨none, 0, 0, 0, some e⟩, ⟨[], []⟩)
    | [] =>
      let refs := ups.filterMap fun u =>
        match u with
        | .ok uri => some uri
        | .error _ => none
      if refs.isEmpty then
        (⟨none, 0, 0, 0, some "no files were successfully uploaded"⟩, ⟨[], []⟩)
      else
        let parts := GenPart.text QuizPrompt :: refs.map GenPart.fileRef
        let r := generateQuizGo (env.oracle path) parts
        (r.1, ⟨r.2, refs⟩)

/-- One processed sub-batch of `processFilesIndividually`: its index, its
files, and the result of its `processChunk` call. -/
structure BatchCell where
  idx : Nat
  files : List DocumentFile
  out : PipeOut
  eff : Effects
deriving DecidableEq, Repr

/-- The per-batch error message pushed by a failing sub-batch goroutine
(`fmt.Errorf("failed to process batch %d (%s): %w", ...)`). -/
def batchCellErr (c : BatchCell) : Option String :=
  match c.out.err with
  | some e => some ("failed to process batch " ++ toString c.idx ++ " (" ++
      String.intercalate ", " (c.files.map fun f => f.name) ++ "): " ++ e)
  | none => none

mutual

/-- Embeds `processChunk` (src/unnamed/part_000 lines 408-428): the 3-way
routing on batch shape and aggregate size. -/
def processChunkGo (env : Env) (path : List Nat) :
    Nat → List DocumentFile → PipeOut × Effects
  | 0, _ => (⟨none, 0, 0, 0, some "model recursion depth exceeded"⟩, ⟨[], []⟩)
  | fuel + 1, files =>
    let totalSize := (files.map fun f => f.size).sum
    if 1 < files.length ∧ MaxInlineSize / 2 < totalSize then
      processFilesIndividuallyGo env path fuel files
    else if MaxInlineSize < totalSize then
      processWithFileAPIGo env path files
    else
      processInlineGo env path files

/-- Embeds `processFilesIndividually` (src/unnamed/part_000 lines 432-522):
plan sub-batches, process each one, aggregate tokens unconditionally, cap
each batch at 40 questions, fail with the combined messages when any batch
failed, otherwise shuffle and cap at 100. -/
def processFilesIndividuallyGo (env : Env) (path : List Nat) :
    Nat → List DocumentFile → PipeOut × Effects
  | 0, _ => (⟨none, 0, 0, 0, some "model recursion depth exceeded"⟩, ⟨[], []⟩)
  | fuel + 1, files =>
    let cells := processBatches env path fuel
      ((createFileBatches files (MaxInlineSize / 4)).enum)
    let aggP := cells.foldl (fun a c => a + c.out.promptTokens) 0
    let aggC := cells.foldl (fun a c => a + c.out.candidateTokens) 0
    let aggT := cells.foldl (fun a c => a + c.out.totalTokens) 0
    let eff := cells.foldl (fun a c => Effects.app a c.eff) ⟨[], []⟩
    let allQ := cells.foldl (fun acc c =>
      match c.out.draft with
      | some q => if 0 < q.questions.length then acc ++ q.questions.take 40 else acc
      | none => acc) ([] : List GeminiQuestion)
    match cells.filterMap batchCellErr with
    | e :: es =>
        (⟨none, aggP, aggC, aggT,
          some ("failed to process one or more batches: " ++
            String.intercalate "; " (e :: es))⟩, eff)
    | [] =>
      if allQ.isEmpty then
        (⟨none, aggP, aggC, aggT, some "no questions generated from any files"⟩, eff)
      else
        (⟨some ⟨"", (env.shuffleQs allQ).take 100⟩, aggP, aggC, aggT, none⟩, eff)

/-- Process the enumerated sub-batches of `processFilesIndividually` in
order, each through `processChunk`. -/
def processBatches (env : Env) (path : List Nat) :
    Nat → List (Nat × List DocumentFile) → List BatchCell
  | 0, _ => []
  | _ + 1, [] => []
  | fuel + 1, ib :: rest =>
    let r := processChunkGo env (path ++ [ib.1]) fuel ib.2
    ⟨ib.1, ib.2, r.1, r.2⟩ :: processBatches env path fuel rest

end

/-- The processed sub-batches of one `processFilesIndividually` call. -/
def batchCells (env : Env) (path : List Nat) (fuel : Nat) (files : List DocumentFile) :
    List BatchCell :=
  processBatches env path fuel ((createFileBatches files (MaxInlineSize / 4)).enum)

/-- The combined per-batch error messages of one `processFilesIndividually`
call. -/
def batchErrMsgs (env : Env) (path : List Nat) (fuel : Nat) (files : List DocumentFile) :
    List String :=
  (batchCells env path fuel files).filterMap batchCellErr

/-- The results of the per-document chunks of `ProcessDocuments`
(chunk size 1: the i-th chunk is the singleton of the i-th file). -/
def chunkOuts (env : Env) (fuel : Nat) (files : List DocumentFile) :
    List (PipeOut × Effects) :=
  files.enum.map fun p => processChunkGo env [p.1] fuel [p.2]

/-- Embeds `ProcessDocuments` (src/unnamed/part_000 lines 304-406): dispatch
each document as its own chunk, drain all results aggregating token usage
unconditionally, merge the successful drafts in arrival order, fail with the
first chunk error (usage still returned), then resolve the title. -/
def processDocumentsGo (env : Env) (fuel : Nat) (files : List DocumentFile) :
    PipeOut × Effects :=
  let outs := chunkOuts env fuel files
  let aggP := outs.foldl (fun a o => a + o.1.promptTokens) 0
  let aggC := outs.foldl (fun a o => a + o.1.candidateTokens) 0
  let aggT := outs.foldl (fun a o => a + o.1.totalTokens) 0
  let eff := outs.foldl (fun a o => Effects.app a o.2) ⟨[], []⟩
  match outs.filterMap fun o => o.1.err with
  | e :: _ => (⟨none, aggP, aggC, aggT, some ("failed to process chunk: " ++ e)⟩, eff)
  | [] =>
    let drafts := outs.filterMap fun o => o.1.draft
    let titles := (drafts.map fun q => q.title).filter fun t => t ≠ ""
    let combined : Option GeminiQuizResponse :=
      match drafts with
      | [] => none
      | q0 :: restQ =>
          some ⟨q0.title, q0.questions ++ (restQ.map fun q => q.questions).flatten⟩
    let combined1 :=
      match combined with
      | some q =>
          if 1 < titles.length ∧ q.title = "" ∧ 0 < titles.length then
            some { q with title := titles.headD "" }
          else some q
      | none => none
    let combined2 :=
      match combined1 with
      | some q =>
          if q.title = "" then some { q with title := "Quiz Generated on " ++ env.today }
          else some q
      | none => none
    (⟨combined2, aggP, aggC, aggT, none⟩, eff)

/-! Persistence-time validation (handler `HandleGenerateQuiz`,
src/unnamed/part_002 lines 432-533).  Inside one database transaction the
handler walks the generated questions: a question with an empty text or
without exactly 4 options is skipped (logged) and the loop continues; a
missing topic defaults to "General"; after inserting a question and its
answers, a correct-answer count different from 1 aborts the handler and the
deferred `tx.Rollback` discards everything.  The transaction is modelled as
`Except`: `.ok rows` is the committed state, `.error` the rollback. -/

/-- One committed question row with its answer rows. -/
structure PersistedQuestion where
  text : String
  topic : String
  answers : List GeminiOption
deriving DecidableEq, Repr

/-- The row the handler writes for a valid question. -/
def toPersisted (q : GeminiQuestion) : PersistedQuestion :=
  ⟨q.text, if q.topic = "" then "General" else q.topic, q.options⟩

/-- Embeds the question loop of `HandleGenerateQuiz`: skip structurally
invalid questions, abort the whole transaction on a wrong correct-answer
count, otherwise persist the question and continue. -/
def persistQuestionsGo :
    List GeminiQuestion → List PersistedQuestion → Except String (List PersistedQuestion)
  | [], acc => .ok acc.reverse
  | q :: rest, acc =>
    if q.text = "" ∨ q.options.length ≠ 4 then persistQuestionsGo rest acc
    else
      let correctCount := (q.options.filter fun o => o.isCorrect).length
      if correctCount ≠ 1 then
        .error ("invalid number of correct answers (" ++ toString correctCount ++
          ") for question: " ++ q.text)
      else persistQuestionsGo rest (toPersisted q :: acc)

/-! Concrete instances used by the witnesses and counterexamples below. -/

/-- The spec-side quantity the token-usage claim talks about: the sum of the
total-token counters over every model attempt that returned usage
metadata. -/
def usageSeenTotal (rs : List AttemptRecord) : Int :=
  rs.foldl (fun a r => a +
    (match r.usageSeen with
     | some u => u.totalTokens
     | none => 0)) 0

/-- An environment that never succeeds (placeholder fields). -/
def envBase : Env :=
  { readFile := fun _ => .error "unavailable"
    statSize := fun _ => .error "unavailable"
    upload := fun _ => .error "unavailable"
    shuffleQs := id
    oracle := fun _ _ => .error "unavailable"
    today := "January 1, 2026" }

/-- A response carrying usage metadata whose text decodes to a one-question
quiz. -/
def goodResp123 : GenResponse :=
  ⟨some ⟨1, 2, 3⟩, [⟨[GenPart.text "\x7b\"questions\":[\x7b\x7d]\x7d"]⟩]⟩

/-- C1 counterexample environment: the only chunk's attempt 0 returns usage
(10, 20, 30) but unparsable text; attempts 1 and 2 are transport errors. -/
def cexEnv1 : Env :=
  { envBase with
    readFile := fun _ => .ok "data"
    oracle := fun _ n =>
      if n = 0 then .ok ⟨some ⟨10, 20, 30⟩, [⟨[GenPart.text "nonsense"]⟩]⟩
      else .error "boom" }

/-- C1 counterexample document. -/
def cexFile1 : DocumentFile := ⟨"doc.txt", "/tmp/doc", 5⟩

/-- An oracle whose every attempt is a transport error (C1 witness). -/
def genFail1 : Nat → Except String GenResponse := fun _ => .error "down"

/-- C2 witness environment: sub-batch 0 succeeds, every other generation
call fails. -/
def env2w : Env :=
  { envBase with
    readFile := fun _ => .ok "x"
    oracle := fun p _ => if p = [0] then .ok goodResp123 else .error "boom" }

/-- C2 witness documents: both above half of `MaxInlineSize/4`, hence two
singleton batches. -/
def fA2 : DocumentFile := ⟨"fa.txt", "/a", 3000000⟩

/-- Second C2 witness document. -/
def fB2 : DocumentFile := ⟨"fb.txt", "/b", 2700000⟩

/-- C3 counterexample: a prefix of a valid JSON object missing exactly two
closing braces, but containing a closing brace after the questions key. -/
def cex3 : String := "\x7b\"questions\":[\x7b\"x\":1\x7d],\"a\":\x7b\"b\":1"

/-- C3 witness: a truncated object with no closing brace at all. -/
def am3 : String := "\x7b\"questions\":1,\"a\":\x7b\"b\":2"

/-- C4 counterexample/witness oracle: all attempts are transport errors. -/
def genFail4 : Nat → Except String GenResponse := fun _ => .error "x"

/-- C5 witness oracles. -/
def genFail5 : Nat → Except String GenResponse := fun _ => .error "down5"

/-- C5/C9 witness oracle: attempt 0 already succeeds. -/
def genOk9 : Nat → Except String GenResponse := fun _ => .ok
  ⟨none, [⟨[GenPart.text "\x7b\"questions\":[\x7b\x7d]\x7d"]⟩]⟩

/-- The quiz `genOk9`'s response decodes to. -/
def quiz9 : GeminiQuizResponse := ⟨"", [⟨"", "", []⟩]⟩

/-- C9 witness draft: a non-empty title and 201 questions. -/
def quiz201 : GeminiQuizResponse := ⟨"T", List.replicate 201 ⟨"q", "t", []⟩⟩

/-- C6 witness environment: stat and upload succeed, generation fails. -/
def env6w : Env :=
  { envBase with
    statSize := fun _ => .ok 26214400
    upload := fun _ => .ok "files/ref-1" }

/-- C6 witness document: 25 MiB, above the 20 MiB inline ceiling. -/
def f25w : DocumentFile := ⟨"big.pdf", "/big", 26214400⟩

/-- C8 witness questions. -/
def qInvalid8 : GeminiQuestion := ⟨"", "t", []⟩

/-- A structurally valid question with exactly one correct option. -/
def qGood8 : GeminiQuestion :=
  ⟨"ok?", "t", [⟨"a", true, "ea"⟩, ⟨"b", false, "eb"⟩, ⟨"c", false, "ec"⟩, ⟨"d", false, "ed"⟩]⟩

/-- A question with 4 options but no correct one. -/
def qBad8 : GeminiQuestion :=
  ⟨"bad?", "t", [⟨"a", false, "ea"⟩, ⟨"b", false, "eb"⟩, ⟨"c", false, "ec"⟩, ⟨"d", false, "ed"⟩]⟩

/-- The record produced for a concrete retry (C4 witness). -/
def rec4 : AttemptRecord := ⟨1, 3096, some 35, [], none, true, 2⟩

/-- Unfolding equation of `persistQuestionsGo` on a non-empty list. -/
lemma persist_cons (q : GeminiQuestion) (rest : List GeminiQuestion)
    (acc : List PersistedQuestion) :
    persistQuestionsGo (q :: rest) acc =
      if q.text = "" ∨ q.options.length ≠ 4 then persistQuestionsGo rest acc
      else if (q.options.filter fun o => o.isCorrect).length ≠ 1 then
        .error ("invalid number of correct answers (" ++
          toString (q.options.filter fun o => o.isCorrect).length ++
          ") for question: " ++ q.text)
      else persistQuestionsGo rest (toPersisted q :: acc) := rfl

/-! Claim theorems. -/

lemma batchesLoop_len_le (maxBatchSize : Int) :
    ∀ (fs : List DocumentFile) (batches : List (List DocumentFile))
      (cur : List DocumentFile) (sz : Int),
      (∀ b ∈ batches, b.length ≤ 3) → cur.length ≤ 3 →
      ∀ b ∈ batchesLoop maxBatchSize fs batches cur sz, b.length ≤ 3 := by
  intro fs
  induction fs with
  | nil =>
      intro batches cur sz hb hc b hbmem
      unfold batchesLoop at hbmem
      split at hbmem
      · rcases List.mem_append.mp hbmem with h | h
        · exact hb b h
        · simp only [List.mem_singleton] at h
          simpa [h] using hc
      · exact hb b hbmem
  | cons f rest ih =>
      intro batches cur sz hb hc b hbmem
      unfold batchesLoop at hbmem
      split at hbmem
      · refine ih _ _ _ ?_ hc b hbmem
        intro b' hb'
        rcases List.mem_append.mp hb' with h | h
        · exact hb b' h
        · simp only [List.mem_singleton] at h
          simp [h]
      · split at hbmem
        · refine ih _ _ _ ?_ (by simp) b hbmem
          intro b' hb'
          rcases List.mem_append.mp hb' with h | h
          · exact hb b' h
          · simp only [List.mem_singleton] at h
            simpa [h] using hc
        · rename_i hbig hflush
          refine ih _ _ _ hb ?_ b hbmem
          rcases Decidable.em (cur.length ≤ 2) with hle | hgt
          · simpa using Nat.succ_le_succ hle
          · exfalso
            apply hflush
            constructor
            · right
              omega
            · omega

/-- C7: for every input document list and every byte cap, no batch produced
by the batching planner `createFileBatches` holds more than 3 documents. -/
theorem plan_batch_size_at_most_three
    (files : List DocumentFile) (maxBatchBytes : Int) :
    ∀ b ∈ createFileBatches files maxBatchBytes, b.length ≤ 3 := by
  intro b hb
  exact batchesLoop_len_le maxBatchBytes (sortBySizeDesc files) [] [] 0
    (by simp) (by simp) b hb

/-- Witness for C7 at a concrete input: four equal-size files under a cap of
100 bytes; the first returned batch holds at most 3 documents. -/
theorem plan_batch_size_at_most_three_witness :
    ([⟨"a", "pa", 10⟩, ⟨"b", "pb", 10⟩, ⟨"c", "pc", 10⟩] : List DocumentFile).length ≤ 3 :=
  plan_batch_size_at_most_three
    [⟨"a", "pa", 10⟩, ⟨"b", "pb", 10⟩, ⟨"c", "pc", 10⟩, ⟨"d", "pd", 10⟩] 100
    [⟨"a", "pa", 10⟩, ⟨"b", "pb", 10⟩, ⟨"c", "pc", 10⟩] (by decide)


/-- C10: `ProcessDocuments` applied to an empty document list returns a nil
quiz draft, zero prompt/candidate/total token counts and a nil error; the
empty input is not reported as an error by the pipeline itself. -/
theorem processDocuments_empty_input (env : Env) (fuel : Nat) :
    processDocumentsGo env fuel [] = (⟨none, 0, 0, 0, none⟩, ⟨[], []⟩) := rfl

/-- C9: when a parsed response holds more than 200 questions, `limitQuizSize`
rebuilds the draft from the first 200 questions only and does not copy the
title; and the successful branch of `generateQuiz` returns exactly
`limitQuizSize` of the parsed quiz, so a passing first attempt with a
non-empty title and more than 200 questions yields a draft with an empty
title. -/
theorem limit_quiz_size_drops_title :
    (∀ q : GeminiQuizResponse, q.title ≠ "" → 200 < q.questions.length →
      (limitQuizSize q 200).title = "" ∧
      (limitQuizSize q 200).questions = q.questions.take 200) ∧
    (∀ (gen : Nat → Except String GenResponse) (parts : List GenPart)
        (q : GeminiQuizResponse) (u : Option UsageMeta),
      stepOut gen 0 = .pass q u →
      (generateQuizGo gen parts).1.draft = some (limitQuizSize q 200)) := by
  constructor
  · intro q _ht hlen
    unfold limitQuizSize
    rw [if_neg (by omega)]
    exact ⟨rfl, rfl⟩
  · intro gen parts q u h
    simp [generateQuizGo, genAuxL, h]

/-- Witness for C9: a draft with title "T" and 201 questions loses its title
and keeps the first 200 questions; a concrete oracle whose first attempt
decodes to `quiz9` makes `generateQuiz` return `limitQuizSize quiz9 200`. -/
theorem limit_quiz_size_drops_title_witness :
    ((limitQuizSize quiz201 200).title = "" ∧
      (limitQuizSize quiz201 200).questions = quiz201.questions.take 200) ∧
    (generateQuizGo genOk9 []).1.draft = some (limitQuizSize quiz9 200) :=
  ⟨limit_quiz_size_drops_title.1 quiz201 (by decide)
      (by show 200 < (List.replicate 201 (⟨"q", "t", []⟩ : GeminiQuestion)).length
          rw [List.length_replicate]; omega),
   limit_quiz_size_drops_title.2 genOk9 [] quiz9 none (by decide)⟩

/-- C8: at persistence time, a question with an empty text or without
exactly 4 options is skipped while the rest of the quiz is still written;
a processed question whose options do not hold exactly one correct answer
aborts the whole write (the `Except.error` rollback commits nothing); and an
all-valid list is committed in full. -/
theorem persistence_validation :
    (∀ (pre : List GeminiQuestion) (q : GeminiQuestion) (post : List GeminiQuestion)
        (acc : List PersistedQuestion),
      (q.text = "" ∨ q.options.length ≠ 4) →
      persistQuestionsGo (pre ++ q :: post) acc = persistQuestionsGo (pre ++ post) acc) ∧
    (∀ (qs : List GeminiQuestion) (q : GeminiQuestion) (acc : List PersistedQuestion),
      q ∈ qs → q.text ≠ "" → q.options.length = 4 →
      (q.options.filter fun o => o.isCorrect).length ≠ 1 →
      ∃ e, persistQuestionsGo qs acc = .error e) ∧
    (∀ (qs : List GeminiQuestion) (acc : List PersistedQuestion),
      (∀ q ∈ qs, q.text ≠ "" ∧ q.options.length = 4 ∧
        (q.options.filter fun o => o.isCorrect).length = 1) →
      persistQuestionsGo qs acc = .ok (acc.reverse ++ qs.map toPersisted)) := by
  refine ⟨?_, ?_, ?_⟩
  · intro pre
    induction pre with
    | nil =>
        intro q post acc hq
        rw [List.nil_append, List.nil_append, persist_cons, if_pos hq]
    | cons p pre ih =>
        intro q post acc hq
        rw [List.cons_append, List.cons_append, persist_cons, persist_cons]
        by_cases hp : p.text = "" ∨ p.options.length ≠ 4
        · rw [if_pos hp, if_pos hp]
          exact ih q post acc hq
        · rw [if_neg hp, if_neg hp]
          by_cases hc : (p.options.filter fun o => o.isCorrect).length ≠ 1
          · rw [if_pos hc, if_pos hc]
          · rw [if_neg hc, if_neg hc]
            exact ih q post _ hq
  · intro qs
    induction qs with
    | nil => intro q acc h; exact absurd h (List.not_mem_nil q)
    | cons p rest ih =>
        intro q acc hmem htext hlen hcorr
        rcases List.mem_cons.mp hmem with rfl | hmem'
        · rw [persist_cons, if_neg (by push_neg; exact ⟨htext, hlen⟩), if_pos hcorr]
          exact ⟨_, rfl⟩
        · rw [persist_cons]
          by_cases hp : p.text = "" ∨ p.options.length ≠ 4
          · rw [if_pos hp]
            exact ih q acc hmem' htext hlen hcorr
          · rw [if_neg hp]
            by_cases hc : (p.options.filter fun o => o.isCorrect).length ≠ 1
            · rw [if_pos hc]
              exact ⟨_, rfl⟩
            · rw [if_neg hc]
              exact ih q _ hmem' htext hlen hcorr
  · intro qs
    induction qs with
    | nil => intro acc _; simp [persistQuestionsGo]
    | cons p rest ih =>
        intro acc hall
        obtain ⟨htext, hlen, hcorr⟩ := hall p (List.mem_cons_self p rest)
        rw [persist_cons, if_neg (by push_neg; exact ⟨htext, hlen⟩),
          if_neg (by simpa using hcorr),
          ih _ fun q hq => hall q (List.mem_cons_of_mem p hq)]
        simp

/-- Witness for C8: a concrete invalid question is skipped while the valid
one is written; a concrete wrong-correct-count question aborts the write;
a concrete all-valid list commits in full. -/
theorem persistence_validation_witness :
    (persistQuestionsGo [qInvalid8, qGood8] [] = persistQuestionsGo [qGood8] []) ∧
    (∃ e, persistQuestionsGo [qGood8, qBad8] [] = .error e) ∧
    persistQuestionsGo [qGood8] [] =
      .ok (([] : List PersistedQuestion).reverse ++ [qGood8].map toPersisted) :=
  ⟨persistence_validation.1 [] qInvalid8 [qGood8] [] (by decide),
   persistence_validation.2.1 [qGood8, qBad8] qBad8 [] (by decide) (by decide) (by decide)
     (by decide),
   persistence_validation.2.2 [qGood8] [] (by decide)⟩

/-- C6: a chunk holding a single document above the 20 MiB inline ceiling is
routed to the remote-reference mode `processWithFileAPI`; there, after a
successful upload, the generation request attaches the fixed prompt plus
the remote reference, and the uploaded reference is deleted after the
generation call returns — for every oracle, i.e. whether generation
succeeded or failed. -/
theorem oversize_chunk_uses_file_api_and_deletes
    (env : Env) (path : List Nat) (fuel : Nat) (f : DocumentFile) (uri : String) (sz : Int)
    (hbig : MaxInlineSize < f.size)
    (hstat : env.statSize f.path = .ok sz) (hsz : sz ≠ 0)
    (hup : env.upload f.path = .ok uri) :
    processChunkGo env path (fuel + 1) [f] = processWithFileAPIGo env path [f] ∧
    (processWithFileAPIGo env path [f]).2.deleted = [uri] ∧
    ((processWithFileAPIGo env path [f]).2.attempts.head?.map fun r => r.sentParts) =
      some [GenPart.text QuizPrompt, GenPart.fileRef uri] := by
  have hstep : upStep env f = .ok uri := by
    simp [upStep, hstat, hsz, hup]
  have hfile : processWithFileAPIGo env path [f] =
      ((generateQuizGo (env.oracle path) [GenPart.text QuizPrompt, GenPart.fileRef uri]).1,
       ⟨(generateQuizGo (env.oracle path) [GenPart.text QuizPrompt, GenPart.fileRef uri]).2,
        [uri]⟩) := by
    unfold processWithFileAPIGo
    simp [hstep]
  refine ⟨?_, ?_, ?_⟩
  · unfold processChunkGo
    rw [if_neg (by simp), if_pos (by simpa using hbig)]
  · rw [hfile]
  · rw [hfile]
    rcases h : stepOut (env.oracle path) 0 with ⟨m, u⟩ | ⟨q, u⟩ <;>
      simp [generateQuizGo, genAuxL, h, mkRecord]

/-- Witness for C6 at a concrete environment whose generation calls all
fail: routing picks the file API and the uploaded reference is still
deleted. -/
theorem oversize_chunk_uses_file_api_and_deletes_witness :
    (processChunkGo env6w [0] 3 [f25w] = processWithFileAPIGo env6w [0] [f25w]) ∧
    (processWithFileAPIGo env6w [0] [f25w]).2.deleted = ["files/ref-1"] ∧
    ((processWithFileAPIGo env6w [0] [f25w]).2.attempts.head?.map fun r => r.sentParts) =
      some [GenPart.text QuizPrompt, GenPart.fileRef "files/ref-1"] :=
  oversize_chunk_uses_file_api_and_deletes env6w [0] 2 f25w "files/ref-1" 26214400
    (by decide) rfl (by decide) rfl

/-- Trace characterization of `generateQuiz`: its attempt records are
`mkRecord` of the step results for attempts `0 .. attemptsMade - 1`. -/
lemma generateQuizGo_trace (gen : Nat → Except String GenResponse) (parts : List GenPart) :
    (generateQuizGo gen parts).2 =
      (List.range (attemptsMade gen)).map fun n => mkRecord parts n (stepOut gen n) := by
  have hr1 : List.range 1 = [0] := rfl
  have hr2 : List.range 2 = [0, 1] := rfl
  have hr3 : List.range 3 = [0, 1, 2] := rfl
  rcases h0 : stepOut gen 0 with ⟨m0, u0⟩ | ⟨q0, u0⟩ <;>
    rcases h1 : stepOut gen 1 with ⟨m1, u1⟩ | ⟨q1, u1⟩ <;>
      rcases h2 : stepOut gen 2 with ⟨m2, u2⟩ | ⟨q2, u2⟩ <;>
        simp [generateQuizGo, genAuxL, attemptsMade, h0, h1, h2, StepOut.isFail,
          hr1, hr2, hr3]

/-- Case analysis on the number of attempts the loop makes. -/
lemma attemptsMade_cases (gen : Nat → Except String GenResponse) :
    (attemptsMade gen = 1 ∧ (stepOut gen 0).isFail = false) ∨
    (attemptsMade gen = 2 ∧ (stepOut gen 0).isFail = true ∧
      (stepOut gen 1).isFail = false) ∨
    (attemptsMade gen = 3 ∧ (stepOut gen 0).isFail = true ∧
      (stepOut gen 1).isFail = true) := by
  cases hb0 : (stepOut gen 0).isFail with
  | false => exact Or.inl ⟨by unfold attemptsMade; rw [hb0]; rfl, rfl⟩
  | true =>
    cases hb1 : (stepOut gen 1).isFail with
    | false =>
        refine Or.inr (Or.inl ⟨?_, rfl, rfl⟩)
        unfold attemptsMade
        rw [hb0, hb1]
        rfl
    | true =>
        refine Or.inr (Or.inr ⟨?_, rfl, rfl⟩)
        unfold attemptsMade
        rw [hb0, hb1]
        rfl

/-- C4 (amended): every attempt record of `generateQuiz` carries the actual
schedule — 8192 output tokens and the unmodified prompt on attempt 0; on
retry `n` the budget `4096 - 1000*n` (3096, then 2096) and the prompt with
the `50 - 15*n` question cap (35, then 20) injected into its first text
part; and a 2-second sleep exactly after failed attempts. -/
theorem retry_schedule (gen : Nat → Except String GenResponse) (parts : List GenPart) :
    ∀ r ∈ (generateQuizGo gen parts).2,
      r.maxOutputTokens = (if r.index = 0 then 8192 else 4096 - 1000 * (r.index : Int)) ∧
      r.questionCap =
        (if r.index = 0 then (none : Option Int) else some (50 - 15 * (r.index : Int))) ∧
      r.sentParts =
        (if r.index = 0 then parts else replaceFirstText parts (limitedPrompt r.index)) ∧
      r.sleptSeconds = (if r.failed then 2 else 0) := by
  intro r hr
  rw [generateQuizGo_trace] at hr
  obtain ⟨n, _, rfl⟩ := List.mem_map.mp hr
  exact ⟨rfl, rfl, rfl, rfl⟩

/-- Counterexample for C4 as claimed: on an oracle that always fails, the
actual schedule is 8192, then 3096 with cap 35, then 2096 with cap 20 —
not a 1000-token reduction from 8192 and not a first-retry cap of 50. -/
theorem retry_schedule_cex :
    ((generateQuizGo genFail4 []).2.map fun r => (r.maxOutputTokens, r.questionCap)) =
      [((8192 : Int), (none : Option Int)), (3096, some 35), (2096, some 20)] ∧
    ¬((3096 : Int) = 8192 - 1000) ∧ ¬(some (35 : Int) = some (50 : Int)) :=
  ⟨by decide, by decide, by decide⟩

/-- Witness for C4 at a concrete record of a concrete trace. -/
theorem retry_schedule_witness :
    rec4.maxOutputTokens = (if rec4.index = 0 then 8192 else 4096 - 1000 * (rec4.index : Int)) ∧
    rec4.questionCap =
      (if rec4.index = 0 then (none : Option Int) else some (50 - 15 * (rec4.index : Int))) ∧
    rec4.sentParts =
      (if rec4.index = 0 then [] else replaceFirstText [] (limitedPrompt rec4.index)) ∧
    rec4.sleptSeconds = (if rec4.failed then 2 else 0) :=
  retry_schedule genFail4 [] rec4 (by decide)

/-- C5: the generation call makes at most 3 attempts, whose records are the
step results in order; another attempt follows an attempt exactly when that
attempt hit one of the five failure categories enumerated by `stepOut`
(transport error, empty candidates/parts, empty extracted JSON, JSON parse
failure, zero parsed questions) and fewer than 3 attempts were made; after
3 failures the call returns the last error with no draft; and a success
returns the first passing attempt's quiz (capped at 200), never a partial
result. -/
theorem generation_retry_policy
    (gen : Nat → Except String GenResponse) (parts : List GenPart) :
    (generateQuizGo gen parts).2.length ≤ 3 ∧
    (generateQuizGo gen parts).2 =
      (List.range (attemptsMade gen)).map (fun n => mkRecord parts n (stepOut gen n)) ∧
    (∀ n, n + 1 < attemptsMade gen → (stepOut gen n).isFail = true) ∧
    (∀ n, n < attemptsMade gen → n + 1 < 3 → (stepOut gen n).isFail = true →
      n + 1 < attemptsMade gen) ∧
    (((stepOut gen 0).isFail = true ∧ (stepOut gen 1).isFail = true ∧
        (stepOut gen 2).isFail = true) →
      (generateQuizGo gen parts).1.draft = none ∧
      (generateQuizGo gen parts).1.err =
        some ("failed to generate quiz after multiple attempts: " ++ (stepOut gen 2).msg)) ∧
    ((generateQuizGo gen parts).1.err = none →
      ∃ q u, stepOut gen (attemptsMade gen - 1) = .pass q u ∧
        (generateQuizGo gen parts).1.draft = some (limitQuizSize q 200)) := by
  refine ⟨?_, generateQuizGo_trace gen parts, ?_, ?_, ?_, ?_⟩
  · rw [generateQuizGo_trace]
    rcases attemptsMade_cases gen with ⟨ha, _⟩ | ⟨ha, _⟩ | ⟨ha, _⟩ <;> simp [ha]
  · intro n hn
    rcases attemptsMade_cases gen with ⟨ha, _⟩ | ⟨ha, h0, _⟩ | ⟨ha, h0, h1⟩ <;> rw [ha] at hn
    · omega
    · have : n = 0 := by omega
      subst this
      exact h0
    · have hcase : n = 0 ∨ n = 1 := by omega
      rcases hcase with rfl | rfl
      · exact h0
      · exact h1
  · intro n hn hn3 hf
    rcases attemptsMade_cases gen with ⟨ha, h0⟩ | ⟨ha, _, h1⟩ | ⟨ha, _, _⟩ <;> rw [ha] at hn ⊢
    · have : n = 0 := by omega
      subst this
      rw [hf] at h0
      exact absurd h0 (by simp)
    · have hcase : n = 0 ∨ n = 1 := by omega
      rcases hcase with rfl | rfl
      · omega
      · rw [hf] at h1
        exact absurd h1 (by simp)
    · omega
  · rintro ⟨f0, f1, f2⟩
    rcases h0 : stepOut gen 0 with ⟨m0, u0⟩ | ⟨q0, u0⟩
    · rcases h1 : stepOut gen 1 with ⟨m1, u1⟩ | ⟨q1, u1⟩
      · rcases h2 : stepOut gen 2 with ⟨m2, u2⟩ | ⟨q2, u2⟩
        · simp [generateQuizGo, genAuxL, h0, h1, h2, StepOut.msg]
        · rw [h2] at f2
          exact absurd f2 (by simp [StepOut.isFail])
      · rw [h1] at f1
        exact absurd f1 (by simp [StepOut.isFail])
    · rw [h0] at f0
      exact absurd f0 (by simp [StepOut.isFail])
  · intro he
    rcases h0 : stepOut gen 0 with ⟨m0, u0⟩ | ⟨q0, u0⟩
    · rcases h1 : stepOut gen 1 with ⟨m1, u1⟩ | ⟨q1, u1⟩
      · rcases h2 : stepOut gen 2 with ⟨m2, u2⟩ | ⟨q2, u2⟩
        · exact absurd he (by simp [generateQuizGo, genAuxL, h0, h1, h2])
        · refine ⟨q2, u2, ?_, ?_⟩
          · have ha : attemptsMade gen = 3 := by
              unfold attemptsMade
              rw [h0, h1]
              rfl
            rw [ha]
            exact h2
          · simp [generateQuizGo, genAuxL, h0, h1, h2]
      · refine ⟨q1, u1, ?_, ?_⟩
        · have ha : attemptsMade gen = 2 := by
            unfold attemptsMade
            rw [h0, h1]
            rfl
          rw [ha]
          exact h1
        · simp [generateQuizGo, genAuxL, h0, h1]
    · refine ⟨q0, u0, ?_, ?_⟩
      · have ha : attemptsMade gen = 1 := by
          unfold attemptsMade
          rw [h0]
          rfl
        rw [ha]
        exact h0
      · simp [generateQuizGo, genAuxL, h0]

/-- Witness for C5, discharging each hypothesis at concrete oracles: the
all-failing oracle exhausts 3 attempts and returns the last error with no
draft, its first failure forces a second attempt; the immediately-successful
oracle returns the first attempt's quiz. -/
theorem generation_retry_policy_witness :
    ((generateQuizGo genFail5 []).1.draft = none ∧
      (generateQuizGo genFail5 []).1.err =
        some ("failed to generate quiz after multiple attempts: " ++
          (stepOut genFail5 2).msg)) ∧
    ((stepOut genFail5 0).isFail = true) ∧
    (0 + 1 < attemptsMade genFail5) ∧
    (∃ q u, stepOut genOk9 (attemptsMade genOk9 - 1) = .pass q u ∧
      (generateQuizGo genOk9 []).1.draft = some (limitQuizSize q 200)) :=
  ⟨(generation_retry_policy genFail5 []).2.2.2.2.1 ⟨by decide, by decide, by decide⟩,
   (generation_retry_policy genFail5 []).2.2.1 0 (by decide),
   (generation_retry_policy genFail5 []).2.2.2.1 0 (by decide) (by decide) (by decide),
   (generation_retry_policy genOk9 []).2.2.2.2.2 (by decide)⟩

/-- A left fold accumulating `+ f x` computes the sum of the mapped list. -/
lemma foldl_add_map {α : Type _} (f : α → Int) :
    ∀ (l : List α) (c : Int), l.foldl (fun a x => a + f x) c = c + (l.map f).sum := by
  intro l
  induction l with
  | nil => intro c; simp
  | cons x xs ih => intro c; simp [ih, add_assoc]

/-- C1 (amended): token usage is additive across chunks and batches — both
`ProcessDocuments` and `processFilesIndividually` return exactly the sum of
their sub-results' counters, in the error case as much as in the success
case — but it is not additive across the attempts of one generation call:
a `generateQuiz` call that fails returns zero counters regardless of the
usage its attempts observed. -/
theorem token_usage_aggregation :
    (∀ (env : Env) (fuel : Nat) (files : List DocumentFile),
      (processDocumentsGo env fuel files).1.promptTokens =
        ((chunkOuts env fuel files).map fun o => o.1.promptTokens).sum ∧
      (processDocumentsGo env fuel files).1.candidateTokens =
        ((chunkOuts env fuel files).map fun o => o.1.candidateTokens).sum ∧
      (processDocumentsGo env fuel files).1.totalTokens =
        ((chunkOuts env fuel files).map fun o => o.1.totalTokens).sum) ∧
    (∀ (env : Env) (path : List Nat) (fuel : Nat) (files : List DocumentFile),
      (processFilesIndividuallyGo env path (fuel + 1) files).1.promptTokens =
        ((batchCells env path fuel files).map fun c => c.out.promptTokens).sum ∧
      (processFilesIndividuallyGo env path (fuel + 1) files).1.candidateTokens =
        ((batchCells env path fuel files).map fun c => c.out.candidateTokens).sum ∧
      (processFilesIndividuallyGo env path (fuel + 1) files).1.totalTokens =
        ((batchCells env path fuel files).map fun c => c.out.totalTokens).sum) ∧
    (∀ (gen : Nat → Except String GenResponse) (parts : List GenPart),
      (generateQuizGo gen parts).1.err.isSome = true →
      (generateQuizGo gen parts).1.promptTokens = 0 ∧
      (generateQuizGo gen parts).1.candidateTokens = 0 ∧
      (generateQuizGo gen parts).1.totalTokens = 0) := by
  refine ⟨?_, ?_, ?_⟩
  · intro env fuel files
    refine ⟨?_, ?_, ?_⟩ <;>
      · unfold processDocumentsGo
        dsimp only
        split <;> simp [foldl_add_map]
  · intro env path fuel files
    refine ⟨?_, ?_, ?_⟩ <;>
      · unfold processFilesIndividuallyGo batchCells
        dsimp only
        split
        · simp [foldl_add_map]
        · split <;> simp [foldl_add_map]
  · intro gen parts h
    rcases h0 : stepOut gen 0 with ⟨m0, u0⟩ | ⟨q0, u0⟩
    · rcases h1 : stepOut gen 1 with ⟨m1, u1⟩ | ⟨q1, u1⟩
      · rcases h2 : stepOut gen 2 with ⟨m2, u2⟩ | ⟨q2, u2⟩
        · simp [generateQuizGo, genAuxL, h0, h1, h2]
        · exact absurd h (by simp [generateQuizGo, genAuxL, h0, h1, h2])
      · exact absurd h (by simp [generateQuizGo, genAuxL, h0, h1])
    · exact absurd h (by simp [generateQuizGo, genAuxL, h0])

/-- Counterexample for C1 as claimed: in a concrete invocation the only
chunk's attempt 0 returned usage metadata totalling 30 before failing to
parse; `ProcessDocuments` returns an error with zero token usage, not the
sum (30) of the usage counters of the attempts made. -/
theorem token_usage_aggregation_cex :
    (processDocumentsGo cexEnv1 3 [cexFile1]).1.err.isSome = true ∧
    (processDocumentsGo cexEnv1 3 [cexFile1]).1.promptTokens = 0 ∧
    (processDocumentsGo cexEnv1 3 [cexFile1]).1.candidateTokens = 0 ∧
    (processDocumentsGo cexEnv1 3 [cexFile1]).1.totalTokens = 0 ∧
    usageSeenTotal (processDocumentsGo cexEnv1 3 [cexFile1]).2.attempts = 30 ∧
    (0 : Int) ≠ 30 :=
  ⟨by decide, by decide, by decide, by decide, by decide, by decide⟩

/-- Witness for C1's conditional conjunct: a concrete failing generation
call reports zero usage. -/
theorem token_usage_aggregation_witness :
    (generateQuizGo genFail1 []).1.promptTokens = 0 ∧
    (generateQuizGo genFail1 []).1.candidateTokens = 0 ∧
    (generateQuizGo genFail1 []).1.totalTokens = 0 :=
  token_usage_aggregation.2.2 genFail1 [] (by decide)

/-- C2: whenever at least one sub-batch of a `processFilesIndividually` call
fails (after its own retries are exhausted), the merge returns no quiz draft
at all and an error combining all per-batch error messages. -/
theorem merge_all_or_nothing
    (env : Env) (path : List Nat) (fuel : Nat) (files : List DocumentFile)
    (h : ∃ c ∈ batchCells env path fuel files, c.out.err.isSome = true) :
    (processFilesIndividuallyGo env path (fuel + 1) files).1.draft = none ∧
    (processFilesIndividuallyGo env path (fuel + 1) files).1.err =
      some ("failed to process one or more batches: " ++
        String.intercalate "; " (batchErrMsgs env path fuel files)) := by
  obtain ⟨c, hc, hcerr⟩ := h
  obtain ⟨e, he⟩ := Option.isSome_iff_exists.mp hcerr
  have hmem : ("failed to process batch " ++ toString c.idx ++ " (" ++
      String.intercalate ", " (c.files.map fun f => f.name) ++ "): " ++ e) ∈
      batchErrMsgs env path fuel files :=
    List.mem_filterMap.mpr ⟨c, hc, by simp [batchCellErr, he]⟩
  have hne : batchErrMsgs env path fuel files ≠ [] := List.ne_nil_of_mem hmem
  cases hcase : batchErrMsgs env path fuel files with
  | nil => exact absurd hcase hne
  | cons e0 es =>
    have hcase' : (processBatches env path fuel
        ((createFileBatches files (MaxInlineSize / 4)).enum)).filterMap batchCellErr =
        e0 :: es := hcase
    refine ⟨?_, ?_⟩ <;>
      · unfold processFilesIndividuallyGo
        dsimp only
        rw [hcase']

/-- Witness for C2: two documents forming two singleton sub-batches, the
first succeeding and the second exhausting its retries; the merge returns no
draft and the combined error. -/
theorem merge_all_or_nothing_witness :
    (processFilesIndividuallyGo env2w [] 6 [fA2, fB2]).1.draft = none ∧
    (processFilesIndividuallyGo env2w [] 6 [fA2, fB2]).1.err =
      some ("failed to process one or more batches: " ++
        String.intercalate "; " (batchErrMsgs env2w [] 5 [fA2, fB2])) :=
  merge_all_or_nothing env2w [] 5 [fA2, fB2] (by decide)

/-- When `c` does not occur in `s`, `lastIdxOf` finds nothing. -/
lemma lastIdxOf_eq_none {s : List Char} {c : Char} (h : c ∉ s) : lastIdxOf s c = none := by
  unfold lastIdxOf
  have hf : ((List.range s.length).filter fun k => s.getD k ' ' = c) = [] := by
    rw [List.filter_eq_nil_iff]
    intro k hk
    have hklen : k < s.length := List.mem_range.mp hk
    have hg : s.getD k ' ' = s[k] := by
      rw [List.getD_eq_getElem?_getD, List.getElem?_eq_getElem hklen]
      rfl
    simp only [hg, decide_eq_true_eq]
    intro heq
    exact h (heq ▸ List.getElem_mem hklen)
  rw [hf]
  rfl

/-- Without any closing brace the greedy object regex cannot match. -/
lemma re1Match_eq_none {s : List Char} (h : rbr ∉ s) : re1Match s = none := by
  unfold re1Match
  rw [lastIdxOf_eq_none h]

/-- A pattern holding a character absent from `s` occurs nowhere in `s`. -/
lemma subAt_eq_false {pat s : List Char} {c : Char} (hc : c ∈ pat) (h : c ∉ s) (i : Nat) :
    subAt pat s i = false := by
  cases hsub : subAt pat s i with
  | false => rfl
  | true =>
    have hpre : pat <+: s.drop i := List.isPrefixOf_iff_prefix.mp hsub
    exact absurd (List.Sublist.mem hc (hpre.sublist.trans (List.drop_sublist i s))) h

/-- Without any backtick the fenced-code regex cannot match. -/
lemma re2Match_eq_none {s : List Char} (h : btick ∉ s) : re2Match s = none := by
  unfold re2Match
  have hfind : findFirstIdx s.length (fun i => (re2At s i).isSome) = none := by
    unfold findFirstIdx
    rw [List.find?_eq_none]
    intro i _
    have hfence : subAt fenceL s i = false := subAt_eq_false (by simp [fenceL]) h i
    simp [re2At, hfence]
  rw [hfind]

/-- A predicate true at 0 is first satisfied at 0. -/
lemma findFirstIdx_zero {n : Nat} {p : Nat → Bool} (hp : p 0 = true) (hn : 0 < n) :
    findFirstIdx n p = some 0 := by
  unfold findFirstIdx
  obtain ⟨m, rfl⟩ : ∃ m, n = m + 1 := ⟨n - 1, by omega⟩
  rw [List.range_succ_eq_map]
  exact List.find?_cons_of_pos _ hp

/-- C3 (amended): for every truncated payload that starts with the object
key `{"questions"`, contains no closing brace and no backtick, and whose
brace-deficit completion is valid JSON, `ExtractJSON` returns exactly that
completion, which parses successfully.  (The counterexample shows the claim
fails as stated once the truncated text contains any closing brace: the
greedy first regex then returns the truncation unrepaired.) -/
theorem extract_repairs_brace_truncation (s : String)
    (h1 : qKeyL.isPrefixOf s.data = true)
    (h2 : rbr ∉ s.data) (h3 : btick ∉ s.data)
    (h4 : jsonUnmarshalMapOkL (s.data ++ List.replicate (braceDeficit s.data) rbr) = true) :
    extractJSONFromText s = String.mk (s.data ++ List.replicate (braceDeficit s.data) rbr) ∧
    jsonUnmarshalMapOk (extractJSONFromText s) = true := by
  have hcore : extractCore s.data = s.data ++ List.replicate (braceDeficit s.data) rbr := by
    unfold extractCore
    rw [re1Match_eq_none h2, re2Match_eq_none h3]
    have hlen : 0 < s.data.length + 1 := by omega
    rw [findFirstIdx_zero (by simpa [subAt] using h1) hlen]
    dsimp only
    rw [List.drop_zero]
    rw [show (braceWalk s.data false false 0 0).1 - (braceWalk s.data false false 0 0).2 =
      braceDeficit s.data from rfl]
    by_cases hlt : (braceWalk s.data false false 0 0).2 < (braceWalk s.data false false 0 0).1
    · rw [if_pos hlt, if_pos h4]
    · rw [if_neg hlt]
      have hz : braceDeficit s.data = 0 := by
        unfold braceDeficit
        dsimp only
        omega
      rw [hz, List.replicate_zero, List.append_nil] at h4 ⊢
      rw [if_pos h4]
  refine ⟨?_, ?_⟩
  · show String.mk (extractCore s.data) = _
    rw [hcore]
  · show jsonUnmarshalMapOkL (String.mk (extractCore s.data)).data = true
    rw [show (String.mk (extractCore s.data)).data = extractCore s.data from rfl, hcore]
    exact h4

/-- Counterexample for C3 as claimed: `cex3` is a prefix of a valid JSON
object missing exactly its two closing braces (the completion parses), yet
`ExtractJSON` returns the greedy regex match up to the last closing brace,
which does not parse. -/
theorem extract_repairs_brace_truncation_cex :
    jsonUnmarshalMapOk (cex3 ++ "\x7d\x7d") = true ∧
    braceDeficit cex3.data = 2 ∧
    extractJSONFromText cex3 = "\x7b\"questions\":[\x7b\"x\":1\x7d" ∧
    jsonUnmarshalMapOk (extractJSONFromText cex3) = false :=
  ⟨by decide, by decide, by decide, by decide⟩

/-- Witness for C3's amended statement at the concrete truncation `am3`. -/
theorem extract_repairs_brace_truncation_witness :
    extractJSONFromText am3 =
      String.mk (am3.data ++ List.replicate (braceDeficit am3.data) rbr) ∧
    jsonUnmarshalMapOk (extractJSONFromText am3) = true :=
  extract_repairs_brace_truncation am3 (by decide) (by decide) (by decide) (by decide)
